import Mathlib

set_option maxRecDepth 10000

/-!
Shallow embedding of the `RealityCheckEngine` scoring module of the
repository (TypeScript), together with theorems checking the
natural-language specification of the engine against the code.

Modelling conventions:
* JavaScript numbers are modelled as exact rationals (`ℚ`); `Math.round`
  is `fun x => ⌊x + 1/2⌋` (round half toward positive infinity, as in JS).
* A JavaScript number that may be `NaN` (this happens only in the price
  pipeline, via `parseFloat("")`) is modelled by the type `JSNum`, with an
  explicit `nan` constructor; every comparison against `nan` is `false`,
  and `Math.min` / `Math.max` / `Math.round` / division propagate `nan`,
  exactly as in IEEE/JS semantics.
* `string.toLowerCase()` is `String.toLower`, `string.includes(sub)` is a
  decidable substring (list-infix) test.
* `analysis_timestamp` (a wall-clock read) is outside the pure embedding
  and is omitted from the result record; no claim mentions it.
-/

/-- JS `Math.round` on an exact rational: round half toward `+∞`. -/
def jsRound (x : ℚ) : ℚ := (⌊x + 1/2⌋ : ℤ)

/-- JS `s.includes(pat)`: `pat` occurs as a contiguous substring of `s`. -/
def strIncludes (s pat : String) : Bool := decide (pat.data <:+: s.data)

/-- A JS number that may be `NaN` (arises from `parseFloat` on a digitless
match in `extractNumericPrice`). -/
inductive JSNum where
  | nan : JSNum
  | num (q : ℚ) : JSNum
deriving DecidableEq, Repr

namespace JSNum

/-- JS `x >= c` (false when `x` is `NaN`). -/
def jsGe (x : JSNum) (c : ℚ) : Bool :=
  match x with
  | .nan => false
  | .num q => c ≤ q

/-- JS `x > c` (false when `x` is `NaN`). -/
def jsGt (x : JSNum) (c : ℚ) : Bool :=
  match x with
  | .nan => false
  | .num q => c < q

end JSNum

/-- `sentiment_breakdown` object of a `ReviewSummary` (scrapeReviews). -/
structure SentimentBreakdown where
  positive : ℕ
  negative : ℕ
  neutral : ℕ
deriving DecidableEq, Repr

/-- `ReviewSummary` as produced by `generateReviewSummary` in
scrapeReviews (fields not read by the engine are omitted:
`recent_reviews`, `top_helpful_reviews`). -/
structure ReviewSummary where
  total_reviews : ℕ
  average_rating : Option ℚ
  sentiment_breakdown : SentimentBreakdown
  common_positives : List String
  common_negatives : List String
deriving DecidableEq, Repr

/-- `TikTokVideoData` interface from scrapeTikTok. -/
structure TikTokVideoData where
  username : String
  caption : String
  hashtags : List String
  mentions : List String
  likes : Option ℕ
  views : Option ℕ
  comments : Option ℕ
  shares : Option ℕ
  affiliate_codes : List String
  promotional_keywords : List String
  paid_promotion_detected : Bool
  video_url : String
  posting_date : Option String
deriving DecidableEq, Repr

/-- The `ingredients` sub-object of `ProductData`. -/
structure Ingredients where
  raw : String
  parsed : List String
deriving DecidableEq, Repr

/-- `ProductData` interface from scrapeProduct. -/
structure ProductData where
  name : String
  price : String
  rating : Option String
  reviews : List String
  ingredients : Ingredients
  platform : String
deriving DecidableEq, Repr

/-- The engine's ingredient reference data (shape of
`getBuiltInIngredientData`). A `null` database behaves like one whose
three lists are empty, so the database is modelled as always present. -/
structure IngredientsDatabase where
  beneficial : List String
  potentially_harmful : List String
  common_irritants : List String
deriving DecidableEq, Repr

/-- `RealityCheckEngine.getBuiltInIngredientData`. -/
def builtInIngredientData : IngredientsDatabase where
  beneficial :=
    ["niacinamide", "hyaluronic acid", "vitamin c", "retinol", "ceramide",
     "glycerin", "salicylic acid", "lactic acid", "peptides", "squalane",
     "vitamin e", "allantoin", "panthenol", "zinc oxide", "titanium dioxide"]
  potentially_harmful :=
    ["alcohol denat", "sodium lauryl sulfate", "formaldehyde", "parabens",
     "phthalates", "mineral oil", "petrolatum", "artificial fragrance"]
  common_irritants :=
    ["fragrance", "essential oils", "menthol", "eucalyptus", "lemon extract"]

/-- `brand_recognition` values of `ProductAnalysis`. -/
inductive BrandRecognition where
  | well_known | emerging | unknown
deriving DecidableEq, Repr

/-- `influencer_credibility` values of `SocialAnalysis`. -/
inductive Credibility where
  | high | medium | low | unknown
deriving DecidableEq, Repr

/-- `review_credibility` values of `ReviewAnalysis`. -/
inductive ReviewCredibility where
  | high | medium | low
deriving DecidableEq, Repr

/-- `confidence_level` values of `RealityCheckResult`. -/
inductive ConfidenceLevel where
  | high | medium | low
deriving DecidableEq, Repr

/-- `overall_verdict` values of `RealityCheckResult`. -/
inductive Verdict where
  | authentic | suspicious | likely_sponsored
deriving DecidableEq, Repr

/-- `value_assessment` values of `PriceAnalysis`. -/
inductive ValueAssessment where
  | excellent | good | fair | poor | unknown
deriving DecidableEq, Repr

/-- `market_comparison` values of `PriceAnalysis`. -/
inductive MarketComparison where
  | below_market | market_rate | above_market | premium
deriving DecidableEq, Repr

/-- `ProductAnalysis` sub-result. -/
structure ProductAnalysis where
  product_name : String
  platform : String
  availability_score : ℚ
  brand_recognition : BrandRecognition
  price_reasonableness : ℚ
deriving DecidableEq, Repr

/-- `SocialAnalysis` sub-result. -/
structure SocialAnalysis where
  has_social_data : Bool
  promotional_detected : Bool
  affiliate_codes_found : ℕ
  hashtag_authenticity : ℚ
  influencer_credibility : Credibility
  sponsored_content_probability : ℚ
deriving DecidableEq, Repr

/-- `OverallIngredientAnalysis` sub-result. -/
structure OverallIngredientAnalysis where
  total_ingredients : ℕ
  beneficial_ingredients : List String
  potentially_harmful : List String
  ingredient_quality_score : ℚ
  ingredient_authenticity : ℚ
deriving DecidableEq, Repr

/-- `ReviewAnalysis` sub-result. -/
structure ReviewAnalysis where
  review_count : ℕ
  sentiment_distribution : SentimentBreakdown
  review_authenticity_score : ℚ
  common_concerns : List String
  review_credibility : ReviewCredibility
deriving DecidableEq, Repr

/-- `PriceAnalysis` sub-result. `price_vs_ingredients` is a `JSNum`
because the numeric price feeding it can be `NaN`. -/
structure PriceAnalysis where
  price_range : String
  value_assessment : ValueAssessment
  price_vs_ingredients : JSNum
  market_comparison : MarketComparison
deriving DecidableEq, Repr

/-- `RealityCheckResult` (without the wall-clock `analysis_timestamp`). -/
structure RealityCheckResult where
  reality_score : JSNum
  confidence_level : ConfidenceLevel
  overall_verdict : Verdict
  product_analysis : ProductAnalysis
  social_analysis : SocialAnalysis
  ingredient_analysis : OverallIngredientAnalysis
  review_analysis : ReviewAnalysis
  price_analysis : PriceAnalysis
  red_flags : List String
  green_flags : List String
  recommendations : List String
  data_sources : List String
deriving DecidableEq, Repr

/-- Digit run to a natural number (helper for `extractNumericPrice`). -/
def digitsToNat (ds : List Char) : ℕ :=
  ds.foldl (fun acc c => 10 * acc + (c.toNat - 48)) 0

/-- Character class `[\d,]` of the price regex. -/
def isDigitOrComma (c : Char) : Bool := c.isDigit || c = ','

/-- `RealityCheckEngine.extractNumericPrice`: first match of
`/[\d,]+\.?\d*/` in the price string, commas stripped, then `parseFloat`.
`none` is the JS `null` (no match); `some .nan` is `parseFloat("")` or
`parseFloat(".")`, which happen when the matched run holds no digit. -/
def extractNumericPrice (price : String) : Option JSNum :=
  let rest := price.data.dropWhile (fun c => !isDigitOrComma c)
  if rest.isEmpty then none
  else
    let run1 := rest.takeWhile isDigitOrComma
    let after1 := rest.drop run1.length
    let run2 : List Char :=
      match after1 with
      | '.' :: t => t.takeWhile Char.isDigit
      | _ => []
    let intDigits := run1.filter Char.isDigit
    if intDigits.isEmpty && run2.isEmpty then some .nan
    else some (.num ((digitsToNat (intDigits ++ run2) : ℚ) / (10 ^ run2.length : ℕ)))

/-- `RealityCheckEngine.assessPriceReasonableness`. A `NaN` price fails
every `<=` test and falls through to the final `return 30`. -/
def assessPriceReasonableness (price : String) : ℚ :=
  match extractNumericPrice price with
  | none => 50
  | some .nan => 30
  | some (.num p) =>
    if p ≤ 15 then 95
    else if p ≤ 30 then 85
    else if p ≤ 60 then 70
    else if p ≤ 100 then 50
    else 30

/-- `RealityCheckEngine.compareToMarket`. A `NaN` price fails every
`<=` test and falls through to `premium`. -/
def compareToMarket (price : JSNum) : MarketComparison :=
  match price with
  | .nan => .premium
  | .num p =>
    if p ≤ 20 then .below_market
    else if p ≤ 50 then .market_rate
    else if p ≤ 100 then .above_market
    else .premium

/-- `RealityCheckEngine.getPriceRange`. A `NaN` price fails every `<=`
test and falls through to the luxury label. -/
def getPriceRange (price : JSNum) : String :=
  match price with
  | .nan => "Luxury ($100+)"
  | .num p =>
    if p ≤ 15 then "Budget ($0-$15)"
    else if p ≤ 30 then "Affordable ($15-$30)"
    else if p ≤ 60 then "Mid-range ($30-$60)"
    else if p ≤ 100 then "Premium ($60-$100)"
    else "Luxury ($100+)"

/-- `RealityCheckEngine.assessValueForMoney`,
`value = ingredientQuality / (price / 10)`. With a `NaN` price every
`>=` test fails (`poor`). With price `0`, JS division gives `Infinity`
when the quality is positive (hence `excellent`) and `NaN` when the
quality is `0` (hence `poor`). -/
def assessValueForMoney (price : JSNum) (ingredientQuality : ℚ) : ValueAssessment :=
  match price with
  | .nan => .poor
  | .num p =>
    if p = 0 then (if 0 < ingredientQuality then .excellent else .poor)
    else
      let value := ingredientQuality / (p / 10)
      if value ≥ 8 then .excellent
      else if value ≥ 6 then .good
      else if value ≥ 4 then .fair
      else .poor

/-- `RealityCheckEngine.calculatePriceIngredientRatio`. With a `NaN`
price, `Math.max(NaN, 1)` is `NaN` and the division / clamp / round all
propagate `NaN`. -/
def calculatePriceIngredientRatio (price : JSNum) (qualityScore : ℚ) : JSNum :=
  match price with
  | .nan => .nan
  | .num p =>
    let expectedPrice := qualityScore * 0.8
    let actualVsExpected := expectedPrice / max p 1
    .num (jsRound (max 0 (min 100 (actualVsExpected * 100))))

/-- `RealityCheckEngine.analyzePrice`. -/
def analyzePrice (price : String) (ingredientQualityScore : ℚ) : PriceAnalysis :=
  match extractNumericPrice price with
  | none =>
    { price_range := price
      value_assessment := .unknown
      price_vs_ingredients := .num 50
      market_comparison := .market_rate }
  | some numericPrice =>
    { price_range := getPriceRange numericPrice
      value_assessment := assessValueForMoney numericPrice ingredientQualityScore
      price_vs_ingredients := calculatePriceIngredientRatio numericPrice ingredientQualityScore
      market_comparison := compareToMarket numericPrice }

/-- The spammy-hashtag token list of `calculateHashtagAuthenticity`. -/
def spammyTokens : List String := ["ad", "sponsored", "promo", "affiliate", "linkinbio"]

/-- The organic-hashtag token list of `calculateHashtagAuthenticity`. -/
def organicTokens : List String := ["skincare", "beauty", "selfcare", "routine", "review"]

/-- A hashtag counted as spammy: its lowercase form contains one of the
spammy tokens as a substring. -/
def isSpammyTag (tag : String) : Bool :=
  spammyTokens.any (fun spam => strIncludes tag.toLower spam)

/-- A hashtag counted as organic: its lowercase form contains one of the
organic tokens as a substring. -/
def isOrganicTag (tag : String) : Bool :=
  organicTokens.any (fun org => strIncludes tag.toLower org)

/-- `RealityCheckEngine.calculateHashtagAuthenticity`. -/
def calculateHashtagAuthenticity (hashtags : List String) : ℚ :=
  if hashtags.length = 0 then 75
  else
    let spammyCount := (hashtags.filter isSpammyTag).length
    let organicCount := (hashtags.filter isOrganicTag).length
    if spammyCount > organicCount then 30
    else if organicCount > spammyCount then 85
    else 60

/-- `RealityCheckEngine.assessInfluencerCredibility`. The JS guard
`if (socialData.likes && socialData.views)` is truthy only when both
counters are present and nonzero. -/
def assessInfluencerCredibility (socialData : TikTokVideoData) : Credibility :=
  match socialData.likes, socialData.views with
  | some likes, some views =>
    if likes ≠ 0 ∧ views ≠ 0 then
      let engagementRate : ℚ := (likes : ℚ) / (views : ℚ)
      if engagementRate > 0.05 then .high
      else if engagementRate > 0.02 then .medium
      else .low
    else .unknown
  | _, _ => .unknown

/-- The disclosure-hashtag list of `calculateSponsoredProbability`
(exact match on the lowercased tag, not substring). -/
def disclosureTags : List String := ["ad", "sponsored", "promo", "affiliate", "gifted"]

/-- `RealityCheckEngine.calculateSponsoredProbability`. -/
def calculateSponsoredProbability (socialData : TikTokVideoData) : ℚ :=
  let p1 : ℚ := if socialData.paid_promotion_detected then 40 else 0
  let p2 := p1 + (if socialData.affiliate_codes.length > 0 then 30 else 0)
  let p3 := p2 + (if socialData.promotional_keywords.length > 0 then 20 else 0)
  let sponsoredHashtags := socialData.hashtags.filter (fun tag => disclosureTags.contains tag.toLower)
  min 100 (p3 + (sponsoredHashtags.length : ℚ) * 10)

/-- `RealityCheckEngine.analyzeSocialMedia`. -/
def analyzeSocialMedia (socialData : Option TikTokVideoData) : SocialAnalysis :=
  match socialData with
  | none =>
    { has_social_data := false
      promotional_detected := false
      affiliate_codes_found := 0
      hashtag_authenticity := 50
      influencer_credibility := .unknown
      sponsored_content_probability := 0 }
  | some sd =>
    { has_social_data := true
      promotional_detected := sd.paid_promotion_detected
      affiliate_codes_found := sd.affiliate_codes.length
      hashtag_authenticity := calculateHashtagAuthenticity sd.hashtags
      influencer_credibility := assessInfluencerCredibility sd
      sponsored_content_probability := calculateSponsoredProbability sd }

/-- `RealityCheckEngine.findBeneficialIngredients`. -/
def findBeneficialIngredients (db : IngredientsDatabase) (ingredients : List String) : List String :=
  ingredients.filter (fun ingredient =>
    db.beneficial.any (fun beneficial => strIncludes ingredient.toLower beneficial.toLower))

/-- `RealityCheckEngine.findHarmfulIngredients`. -/
def findHarmfulIngredients (db : IngredientsDatabase) (ingredients : List String) : List String :=
  ingredients.filter (fun ingredient =>
    db.potentially_harmful.any (fun harmful => strIncludes ingredient.toLower harmful.toLower))

/-- `RealityCheckEngine.calculateIngredientQualityScore`. -/
def calculateIngredientQualityScore (beneficial harmful total : ℕ) : ℚ :=
  if total = 0 then 0
  else
    let beneficialRatio : ℚ := (beneficial : ℚ) / (total : ℚ)
    let harmfulRatio : ℚ := (harmful : ℚ) / (total : ℚ)
    let score := beneficialRatio * 70 + (1 - harmfulRatio) * 30
    let score := if 0 < beneficial ∧ harmful = 0 then score + 10 else score
    jsRound (max 0 (min 100 score))

/-- `RealityCheckEngine.calculateIngredientAuthenticity`. -/
def calculateIngredientAuthenticity (ingredients : Ingredients) : ℚ :=
  let score : ℚ := 75
  let score := if 5 ≤ ingredients.parsed.length ∧ ingredients.parsed.length ≤ 50 then score + 10 else score
  let score :=
    match ingredients.parsed.head? with
    | some first => if ["water", "aqua"].contains first.toLower then score + 10 else score
    | none => score
  let hasPreservatives := ingredients.parsed.any (fun ing =>
    ["phenoxyethanol", "ethylhexylglycerin", "benzyl alcohol"].contains ing.toLower)
  let score := if hasPreservatives then score + 5 else score
  jsRound (max 0 (min 100 score))

/-- `RealityCheckEngine.analyzeIngredients` (the engine method, not the
user-profile helper of the CLI). -/
def analyzeIngredients (db : IngredientsDatabase) (ingredients : Ingredients) : OverallIngredientAnalysis :=
  if ingredients.parsed.length = 0 then
    { total_ingredients := 0
      beneficial_ingredients := []
      potentially_harmful := []
      ingredient_quality_score := 0
      ingredient_authenticity := 50 }
  else
    let beneficial := findBeneficialIngredients db ingredients.parsed
    let harmful := findHarmfulIngredients db ingredients.parsed
    { total_ingredients := ingredients.parsed.length
      beneficial_ingredients := beneficial
      potentially_harmful := harmful
      ingredient_quality_score :=
        calculateIngredientQualityScore beneficial.length harmful.length ingredients.parsed.length
      ingredient_authenticity := calculateIngredientAuthenticity ingredients }

/-- `RealityCheckEngine.calculateReviewAuthenticity`. -/
def calculateReviewAuthenticity (sentimentBreakdown : SentimentBreakdown) : ℚ :=
  let total := sentimentBreakdown.positive + sentimentBreakdown.negative + sentimentBreakdown.neutral
  if total = 0 then 50
  else
    let positiveRatio : ℚ := (sentimentBreakdown.positive : ℚ) / (total : ℚ)
    let negativeRatio : ℚ := (sentimentBreakdown.negative : ℚ) / (total : ℚ)
    if positiveRatio > 0.9 ∨ negativeRatio > 0.8 then 30
    else if 0.4 ≤ positiveRatio ∧ positiveRatio ≤ 0.8 ∧ 0.1 ≤ negativeRatio ∧ negativeRatio ≤ 0.4 then 85
    else 60

/-- `RealityCheckEngine.assessReviewCredibility`. -/
def assessReviewCredibility (reviewSummary : ReviewSummary) (authenticityScore : ℚ) : ReviewCredibility :=
  if 20 ≤ reviewSummary.total_reviews ∧ 70 ≤ authenticityScore then .high
  else if 5 ≤ reviewSummary.total_reviews ∧ 50 ≤ authenticityScore then .medium
  else .low

/-- `RealityCheckEngine.analyzeReviews`. -/
def analyzeReviews (reviewSummary : Option ReviewSummary) : ReviewAnalysis :=
  match reviewSummary with
  | none =>
    { review_count := 0
      sentiment_distribution := ⟨0, 0, 0⟩
      review_authenticity_score := 50
      common_concerns := []
      review_credibility := .low }
  | some rs =>
    if rs.total_reviews = 0 then
      { review_count := 0
        sentiment_distribution := ⟨0, 0, 0⟩
        review_authenticity_score := 50
        common_concerns := []
        review_credibility := .low }
    else
      let authenticityScore := calculateReviewAuthenticity rs.sentiment_breakdown
      { review_count := rs.total_reviews
        sentiment_distribution := rs.sentiment_breakdown
        review_authenticity_score := authenticityScore
        common_concerns := rs.common_negatives
        review_credibility := assessReviewCredibility rs authenticityScore }

/-- An apostrophe, kept out of string literals. -/
def apos : String := String.singleton (Char.ofNat 39)

/-- The well-known-brand list of `analyzeProduct_Internal`. -/
def wellKnownBrands : List String :=
  ["cerave", "the ordinary", "neutrogena", "olay", "clinique", "l" ++ apos ++ "oreal",
   "nivea", "aveeno", "eucerin", "la roche posay", "vichy", "skinceuticals",
   "drunk elephant", "paula" ++ apos ++ "s choice", "cosrx", "innisfree", "laneige"]

/-- `RealityCheckEngine.analyzeProduct_Internal`. -/
def analyzeProduct_Internal (productData : ProductData) : ProductAnalysis :=
  let productNameLower := productData.name.toLower
  let brandRecognition : BrandRecognition :=
    if wellKnownBrands.any (fun brand => strIncludes productNameLower brand)
    then .well_known else .unknown
  let availabilityScore : ℚ :=
    if productData.platform = "amazon" then 90
    else if productData.platform = "sephora" then 85
    else if productData.platform = "oliveyoung" then 70
    else if productData.platform = "yesstyle" then 65
    else 50
  { product_name := productData.name
    platform := productData.platform
    availability_score := availabilityScore
    brand_recognition := brandRecognition
    price_reasonableness := assessPriceReasonableness productData.price }

/-- The `productScore` component of `calculateOverallScore`. -/
def productScoreComponent (product : ProductAnalysis) : ℚ :=
  (product.availability_score + product.price_reasonableness) / 2

/-- The `socialScore` component of `calculateOverallScore`. -/
def socialScoreComponent (social : SocialAnalysis) : ℚ :=
  if social.has_social_data then
    (100 - social.sponsored_content_probability + social.hashtag_authenticity) / 2
  else 75

/-- The `ingredientScore` component of `calculateOverallScore`. -/
def ingredientScoreComponent (ingredient : OverallIngredientAnalysis) : ℚ :=
  (ingredient.ingredient_quality_score + ingredient.ingredient_authenticity) / 2

/-- The `reviewScore` component of `calculateOverallScore`. -/
def reviewScoreComponent (review : ReviewAnalysis) : ℚ :=
  if 0 < review.review_count then review.review_authenticity_score else 75

/-- `RealityCheckEngine.calculateOverallScore`: the weighted average of
the five component scores, clamped to `[0,100]` and rounded. The
`priceScore` component is `price.price_vs_ingredients`, which can be
`NaN`; `NaN` then propagates through the sum, the clamp and the round. -/
def calculateOverallScore (product : ProductAnalysis) (social : SocialAnalysis)
    (ingredient : OverallIngredientAnalysis) (review : ReviewAnalysis)
    (price : PriceAnalysis) : JSNum :=
  match price.price_vs_ingredients with
  | .nan => .nan
  | .num priceScore =>
    let overallScore :=
      productScoreComponent product * 0.2 +
      socialScoreComponent social * 0.3 +
      ingredientScoreComponent ingredient * 0.25 +
      reviewScoreComponent review * 0.15 +
      priceScore * 0.1
    .num (jsRound (max 0 (min 100 overallScore)))

/-- `RealityCheckEngine.determineVerdict`; returns
`(confidenceLevel, verdict)`. A `NaN` reality score fails the `>=` and
`>` comparisons. -/
def determineVerdict (realityScore : JSNum) (socialAnalysis : SocialAnalysis) :
    ConfidenceLevel × Verdict :=
  let verdict : Verdict :=
    if socialAnalysis.promotional_detected ∨ socialAnalysis.sponsored_content_probability > 70
    then .likely_sponsored
    else if realityScore.jsGe 70 then .authentic
    else .suspicious
  let confidenceLevel : ConfidenceLevel :=
    if socialAnalysis.has_social_data ∧ realityScore.jsGt 80 then .high
    else if socialAnalysis.has_social_data ∨ realityScore.jsGt 60 then .medium
    else .low
  (confidenceLevel, verdict)

/-- `RealityCheckEngine.generateInsights`; returns
`(redFlags, greenFlags, recommendations)`. -/
def generateInsights (product : ProductAnalysis) (social : SocialAnalysis)
    (ingredient : OverallIngredientAnalysis) (review : ReviewAnalysis)
    (price : PriceAnalysis) : List String × List String × List String :=
  let redFlags :=
    (if social.promotional_detected then
      ["Sponsored content detected - may be biased promotion"] else []) ++
    (if 0 < social.affiliate_codes_found then
      [toString social.affiliate_codes_found ++ " affiliate codes found - financial incentive present"] else []) ++
    (if 0 < ingredient.potentially_harmful.length then
      ["Contains potentially irritating ingredients: " ++ String.intercalate ", " ingredient.potentially_harmful] else []) ++
    (if review.review_authenticity_score < 50 then
      ["Review patterns suggest possible fake reviews"] else []) ++
    (if price.value_assessment = .poor then
      ["Poor value for money - high price relative to ingredient quality"] else [])
  let greenFlags :=
    (if !social.promotional_detected ∧ social.has_social_data then
      ["No promotional content detected - likely genuine recommendation"] else []) ++
    (if 0 < ingredient.beneficial_ingredients.length then
      ["Contains beneficial ingredients: " ++ String.intercalate ", " ingredient.beneficial_ingredients] else []) ++
    (if product.brand_recognition = .well_known then
      ["Product from well-established brand"] else []) ++
    (if review.review_credibility = .high then
      ["Reviews appear authentic and credible"] else []) ++
    (if price.value_assessment = .excellent ∨ price.value_assessment = .good then
      ["Good value for money based on ingredient quality"] else [])
  let recommendations :=
    (if social.promotional_detected then
      ["Research product independently before purchasing - sponsored content detected"] else []) ++
    (if 0 < ingredient.potentially_harmful.length then
      ["Patch test recommended due to potentially irritating ingredients"] else []) ++
    (if review.review_count < 10 then
      ["Look for more reviews from multiple sources before deciding"] else []) ++
    (if price.market_comparison = .premium then
      ["Consider if premium price is justified by your specific skincare needs"] else [])
  (redFlags, greenFlags, recommendations)

/-- `RealityCheckEngine.getDataSources`. -/
def getDataSources (productData : ProductData) (socialData : Option TikTokVideoData)
    (reviewSummary : Option ReviewSummary) : List String :=
  [productData.platform] ++
  (if socialData.isSome then ["tiktok"] else []) ++
  (match reviewSummary with
   | some rs => if 0 < rs.total_reviews then ["reviews"] else []
   | none => [])

/-- `RealityCheckEngine.analyzeProduct`: the engine's entry point, as a
pure function of the loaded ingredient database and the three inputs
(`analysis_timestamp` omitted; console logging dropped). -/
def analyzeProduct (db : IngredientsDatabase) (productData : ProductData)
    (socialData : Option TikTokVideoData) (reviewSummary : Option ReviewSummary) :
    RealityCheckResult :=
  let productAnalysis := analyzeProduct_Internal productData
  let socialAnalysis := analyzeSocialMedia socialData
  let ingredientAnalysis := analyzeIngredients db productData.ingredients
  let reviewAnalysis := analyzeReviews reviewSummary
  let priceAnalysis := analyzePrice productData.price ingredientAnalysis.ingredient_quality_score
  let realityScore :=
    calculateOverallScore productAnalysis socialAnalysis ingredientAnalysis reviewAnalysis priceAnalysis
  let cv := determineVerdict realityScore socialAnalysis
  let insights :=
    generateInsights productAnalysis socialAnalysis ingredientAnalysis reviewAnalysis priceAnalysis
  { reality_score := realityScore
    confidence_level := cv.1
    overall_verdict := cv.2
    product_analysis := productAnalysis
    social_analysis := socialAnalysis
    ingredient_analysis := ingredientAnalysis
    review_analysis := reviewAnalysis
    price_analysis := priceAnalysis
    red_flags := insights.1
    green_flags := insights.2.1
    recommendations := insights.2.2
    data_sources := getDataSources productData socialData reviewSummary }

/-- Removal of every spammy hashtag (the spammy notion of
`calculateHashtagAuthenticity`): used to state the monotone social
penalty property. -/
def removeSpammyHashtags (tags : List String) : List String :=
  tags.filter (fun t => !isSpammyTag t)

/-- The otherwise-identical social record with the paid-promotion flag
cleared, the affiliate codes emptied and the spammy hashtags removed. -/
def cleanedSocial (sd : TikTokVideoData) : TikTokVideoData :=
  { sd with
    paid_promotion_detected := false
    affiliate_codes := []
    hashtags := removeSpammyHashtags sd.hashtags }

/-- The market-comparison tiering exactly as the specification claim
words it: below_market for `p ≤ 15`, market_rate for `p ≤ 30`,
above_market for `p ≤ 60` and for `p ≤ 100`, premium above. -/
def claimMarketComparison (p : ℚ) : MarketComparison :=
  if p ≤ 15 then .below_market
  else if p ≤ 30 then .market_rate
  else if p ≤ 60 then .above_market
  else if p ≤ 100 then .above_market
  else .premium

/-- The hashtag-authenticity score exactly as the specification claim
words it (no special case for the empty list: equal counts give 60). -/
def claimHashtagAuthenticity (hashtags : List String) : ℚ :=
  let spammyCount := (hashtags.filter isSpammyTag).length
  let organicCount := (hashtags.filter isOrganicTag).length
  if spammyCount > organicCount then 30
  else if organicCount > spammyCount then 85
  else 60

/-- The review-authenticity score exactly as the specification claim
words it, with the specification's ratio convention "ratio = 0 when the
breakdown total is 0" (no separate neutral-50 case). -/
def claimReviewAuthenticity (sentimentBreakdown : SentimentBreakdown) : ℚ :=
  let total := sentimentBreakdown.positive + sentimentBreakdown.negative + sentimentBreakdown.neutral
  let positiveRatio : ℚ := if total = 0 then 0 else (sentimentBreakdown.positive : ℚ) / (total : ℚ)
  let negativeRatio : ℚ := if total = 0 then 0 else (sentimentBreakdown.negative : ℚ) / (total : ℚ)
  if positiveRatio > 0.9 ∨ negativeRatio > 0.8 then 30
  else if 0.4 ≤ positiveRatio ∧ positiveRatio ≤ 0.8 ∧ 0.1 ≤ negativeRatio ∧ negativeRatio ≤ 0.4 then 85
  else 60

/-- Scenario 1 product: ingredients water / niacinamide / glycerin,
price 15 dollars, no rating, no reviews. -/
def pdScenario1 : ProductData where
  name := "Test Hydrating Serum"
  price := "$15"
  rating := none
  reviews := []
  ingredients := { raw := "water, niacinamide, glycerin", parsed := ["water", "niacinamide", "glycerin"] }
  platform := "generic"

/-- Scenario 2 social record: hashtags ad / sponsored / skincare, one
affiliate code, paid promotion detected. -/
def sdScenario2 : TikTokVideoData where
  username := "beauty_influencer"
  caption := "you have to try this"
  hashtags := ["ad", "sponsored", "skincare"]
  mentions := []
  likes := none
  views := none
  comments := none
  shares := none
  affiliate_codes := ["GLOW20"]
  promotional_keywords := []
  paid_promotion_detected := true
  video_url := "https://tiktok.example/video/1"
  posting_date := none

/-- A product whose price text holds no digit and no comma, and whose
ingredient list is empty: every optional-input fallback fires. -/
def pdNoSignals : ProductData where
  name := "Mystery Cream"
  price := "Price Not Available"
  rating := none
  reviews := []
  ingredients := { raw := "", parsed := [] }
  platform := "generic"

/-- A product whose price text is a bare comma: the price regex matches
`","`, comma-stripping leaves `""`, and `parseFloat("")` is `NaN`. -/
def pdCommaPrice : ProductData where
  name := "Glitch Cream"
  price := ","
  rating := none
  reviews := []
  ingredients := { raw := "water", parsed := ["water"] }
  platform := "generic"

/-- A review summary with `total_reviews = 0` but nonzero sentiment
counts. -/
def rsZeroTotal : ReviewSummary where
  total_reviews := 0
  average_rating := none
  sentiment_breakdown := ⟨3, 2, 1⟩
  common_positives := ["nice"]
  common_negatives := ["broke out"]

/-- A review summary whose sentiment breakdown sums to 0 while
`total_reviews` is positive. -/
def rsZeroBreakdown : ReviewSummary where
  total_reviews := 5
  average_rating := none
  sentiment_breakdown := ⟨0, 0, 0⟩
  common_positives := []
  common_negatives := []

/-- The social analysis of an engine result is the analysis of the
social input. -/
theorem analyzeProduct_social_eq (db : IngredientsDatabase) (pd : ProductData)
    (sd : Option TikTokVideoData) (rv : Option ReviewSummary) :
    (analyzeProduct db pd sd rv).social_analysis = analyzeSocialMedia sd := rfl

/-- The review analysis of an engine result is the analysis of the
review input. -/
theorem analyzeProduct_review_eq (db : IngredientsDatabase) (pd : ProductData)
    (sd : Option TikTokVideoData) (rv : Option ReviewSummary) :
    (analyzeProduct db pd sd rv).review_analysis = analyzeReviews rv := rfl

/-- The reality score of an engine result is the overall score of the
five sub-analyses. -/
theorem analyzeProduct_reality_eq (db : IngredientsDatabase) (pd : ProductData)
    (sd : Option TikTokVideoData) (rv : Option ReviewSummary) :
    (analyzeProduct db pd sd rv).reality_score =
      calculateOverallScore (analyzeProduct_Internal pd) (analyzeSocialMedia sd)
        (analyzeIngredients db pd.ingredients) (analyzeReviews rv)
        (analyzePrice pd.price (analyzeIngredients db pd.ingredients).ingredient_quality_score) := rfl

/-- The verdict of an engine result is the verdict component of
`determineVerdict` on the reality score and the social analysis. -/
theorem analyzeProduct_verdict_eq (db : IngredientsDatabase) (pd : ProductData)
    (sd : Option TikTokVideoData) (rv : Option ReviewSummary) :
    (analyzeProduct db pd sd rv).overall_verdict =
      (determineVerdict (analyzeProduct db pd sd rv).reality_score (analyzeSocialMedia sd)).2 := rfl

/-- Unfolding of the verdict component of `determineVerdict`. -/
theorem determineVerdict_snd (x : JSNum) (sa : SocialAnalysis) :
    (determineVerdict x sa).2 =
      (if sa.promotional_detected = true ∨ sa.sponsored_content_probability > 70
       then Verdict.likely_sponsored
       else if x.jsGe 70 then .authentic else .suspicious) := rfl

/-- A present social record with the paid-promotion flag set forces the
likely_sponsored verdict. -/
theorem verdict_of_promotional (db : IngredientsDatabase) (pd : ProductData)
    (rv : Option ReviewSummary) (sd : TikTokVideoData)
    (h : sd.paid_promotion_detected = true) :
    (analyzeProduct db pd (some sd) rv).overall_verdict = .likely_sponsored := by
  rw [analyzeProduct_verdict_eq, determineVerdict_snd]
  have hp : (analyzeSocialMedia (some sd)).promotional_detected = true := by
    simp [analyzeSocialMedia, h]
  rw [if_pos (Or.inl hp)]

/-- C1: the returned verdict is likely_sponsored exactly when
promotional content was detected or the sponsored-content probability
exceeds 70; in particular any present social record with
`paid_promotion_detected = true` yields likely_sponsored; otherwise the
verdict is authentic exactly when the reality score is at least 70, and
suspicious otherwise. -/
theorem verdict_characterization (db : IngredientsDatabase) (pd : ProductData)
    (sd : Option TikTokVideoData) (rv : Option ReviewSummary) :
    (∀ s : TikTokVideoData, sd = some s → s.paid_promotion_detected = true →
      (analyzeProduct db pd sd rv).overall_verdict = .likely_sponsored) ∧
    ((analyzeProduct db pd sd rv).overall_verdict = .likely_sponsored ↔
      ((analyzeProduct db pd sd rv).social_analysis.promotional_detected = true ∨
        (analyzeProduct db pd sd rv).social_analysis.sponsored_content_probability > 70)) ∧
    (¬((analyzeProduct db pd sd rv).social_analysis.promotional_detected = true ∨
        (analyzeProduct db pd sd rv).social_analysis.sponsored_content_probability > 70) →
      (analyzeProduct db pd sd rv).overall_verdict =
        (if (analyzeProduct db pd sd rv).reality_score.jsGe 70 then .authentic else .suspicious)) := by
  refine ⟨?_, ?_, ?_⟩
  · intro s hs hflag
    subst hs
    exact verdict_of_promotional db pd rv s hflag
  · rw [analyzeProduct_verdict_eq, analyzeProduct_social_eq, determineVerdict_snd]
    by_cases h : ((analyzeSocialMedia sd).promotional_detected = true ∨
        (analyzeSocialMedia sd).sponsored_content_probability > 70)
    · simp [h]
    · rw [if_neg h]
      simp only [h, iff_false]
      split_ifs <;> simp
  · intro h
    rw [analyzeProduct_social_eq] at h
    rw [analyzeProduct_verdict_eq, determineVerdict_snd, if_neg h]

/-- C1 witness: scenario-2 social data has the flag set, so the verdict
at a concrete call is likely_sponsored. -/
theorem verdict_characterization_witness :
    (analyzeProduct builtInIngredientData pdScenario1 (some sdScenario2) none).overall_verdict =
      .likely_sponsored :=
  (verdict_characterization builtInIngredientData pdScenario1 (some sdScenario2) none).1
    sdScenario2 rfl rfl

/-- C2 counterexample: on the scenario-1 product the engine's ingredient
quality score is not 77 — the claim misses the +10 bonus that
`calculateIngredientQualityScore` adds when beneficial ingredients are
found and no harmful ones are. -/
theorem scenario1_quality_not_77 :
    (analyzeProduct builtInIngredientData pdScenario1 none none).ingredient_analysis.ingredient_quality_score ≠ 77 := by
  with_unfolding_all decide

/-- C2 (amended): on the scenario-1 product the engine returns
ingredient_quality_score `round((2/3)*70 + 1*30 + 10) = 87` (2 of 3
ingredients beneficial, 0 harmful, so the +10 bonus fires) and
ingredient_authenticity 85 (base 75, count 3 outside [5,50], first
ingredient water gives +10, no preservative token). -/
theorem scenario1_ingredient_scores :
    (analyzeProduct builtInIngredientData pdScenario1 none none).ingredient_analysis.ingredient_quality_score = 87 ∧
    (analyzeProduct builtInIngredientData pdScenario1 none none).ingredient_analysis.beneficial_ingredients = ["niacinamide", "glycerin"] ∧
    (analyzeProduct builtInIngredientData pdScenario1 none none).ingredient_analysis.potentially_harmful = [] ∧
    jsRound ((2/3) * 70 + 1 * 30 + 10) = 87 ∧
    (analyzeProduct builtInIngredientData pdScenario1 none none).ingredient_analysis.ingredient_authenticity = 85 := by
  with_unfolding_all decide

/-- C5: the sponsored-content probability is the capped additive formula
(+40 flag, +30 any affiliate code, +20 any promotional keyword, +10 per
disclosure hashtag, capped at 100); on the scenario-2 social record it
is 90 and every engine call with that record returns the
likely_sponsored verdict. -/
theorem sponsored_probability_formula :
    (∀ sd : TikTokVideoData, calculateSponsoredProbability sd =
      min 100 ((if sd.paid_promotion_detected then (40:ℚ) else 0) +
        (if sd.affiliate_codes ≠ [] then 30 else 0) +
        (if sd.promotional_keywords ≠ [] then 20 else 0) +
        ((sd.hashtags.filter (fun tag => disclosureTags.contains tag.toLower)).length : ℚ) * 10)) ∧
    calculateSponsoredProbability sdScenario2 = 90 ∧
    (∀ (db : IngredientsDatabase) (pd : ProductData) (rv : Option ReviewSummary),
      (analyzeProduct db pd (some sdScenario2) rv).overall_verdict = .likely_sponsored) := by
  refine ⟨?_, by with_unfolding_all decide, ?_⟩
  · intro sd
    unfold calculateSponsoredProbability
    simp only [gt_iff_lt, List.length_pos]
  · intro db pd rv
    exact verdict_of_promotional db pd rv sdScenario2 rfl

/-- C8: at the price string `","` the regex match is a bare comma,
comma-stripping leaves the empty string, and `parseFloat` yields `NaN`;
the `NaN` is not caught by the `=== null` guard and propagates through
`Math.min` / `Math.max` / `Math.round`, so `price_vs_ingredients` and
`reality_score` are `NaN` — not numbers in `[0,100]` as the code's own
field comments require. -/
theorem nan_price_escapes_bounds :
    extractNumericPrice "," = some .nan ∧
    (analyzeProduct builtInIngredientData pdCommaPrice none none).price_analysis.price_vs_ingredients = .nan ∧
    (analyzeProduct builtInIngredientData pdCommaPrice none none).reality_score = .nan ∧
    (∀ q : ℚ, (JSNum.nan ≠ .num q)) := by
  refine ⟨by with_unfolding_all decide, by with_unfolding_all decide,
    by with_unfolding_all decide, fun q h => JSNum.noConfusion h⟩

/-- C9: the engine entry point is a total function; every missing or
degenerate input is replaced by its documented neutral default: absent
social data gives the neutral social analysis, an absent review summary
gives the neutral review analysis, an empty parsed ingredient list gives
the zero/neutral ingredient analysis, and a price string with no numeric
token gives the unknown/neutral price analysis echoing the raw price
text. -/
theorem analyzeProduct_neutral_defaults (db : IngredientsDatabase) (pd : ProductData)
    (sd : Option TikTokVideoData) (rv : Option ReviewSummary) :
    (sd = none → (analyzeProduct db pd sd rv).social_analysis =
      { has_social_data := false, promotional_detected := false, affiliate_codes_found := 0,
        hashtag_authenticity := 50, influencer_credibility := .unknown,
        sponsored_content_probability := 0 }) ∧
    (rv = none → (analyzeProduct db pd sd rv).review_analysis =
      { review_count := 0, sentiment_distribution := ⟨0, 0, 0⟩, review_authenticity_score := 50,
        common_concerns := [], review_credibility := .low }) ∧
    (pd.ingredients.parsed = [] → (analyzeProduct db pd sd rv).ingredient_analysis =
      { total_ingredients := 0, beneficial_ingredients := [], potentially_harmful := [],
        ingredient_quality_score := 0, ingredient_authenticity := 50 }) ∧
    (extractNumericPrice pd.price = none → (analyzeProduct db pd sd rv).price_analysis =
      { price_range := pd.price, value_assessment := .unknown, price_vs_ingredients := .num 50,
        market_comparison := .market_rate }) := by
  refine ⟨?_, ?_, ?_, ?_⟩
  · intro h; subst h; rfl
  · intro h; subst h; rfl
  · intro h
    rw [show (analyzeProduct db pd sd rv).ingredient_analysis = analyzeIngredients db pd.ingredients from rfl]
    simp [analyzeIngredients, h]
  · intro h
    rw [show (analyzeProduct db pd sd rv).price_analysis =
          analyzePrice pd.price (analyzeIngredients db pd.ingredients).ingredient_quality_score from rfl]
    simp [analyzePrice, h]

/-- C9 witness: a product with unparseable price text and an empty
ingredient list, analyzed with no social data and no reviews, hits all
four neutral defaults. -/
theorem analyzeProduct_neutral_defaults_witness :
    (analyzeProduct builtInIngredientData pdNoSignals none none).social_analysis =
      { has_social_data := false, promotional_detected := false, affiliate_codes_found := 0,
        hashtag_authenticity := 50, influencer_credibility := .unknown,
        sponsored_content_probability := 0 } ∧
    (analyzeProduct builtInIngredientData pdNoSignals none none).review_analysis =
      { review_count := 0, sentiment_distribution := ⟨0, 0, 0⟩, review_authenticity_score := 50,
        common_concerns := [], review_credibility := .low } ∧
    (analyzeProduct builtInIngredientData pdNoSignals none none).ingredient_analysis =
      { total_ingredients := 0, beneficial_ingredients := [], potentially_harmful := [],
        ingredient_quality_score := 0, ingredient_authenticity := 50 } ∧
    (analyzeProduct builtInIngredientData pdNoSignals none none).price_analysis =
      { price_range := "Price Not Available", value_assessment := .unknown,
        price_vs_ingredients := .num 50, market_comparison := .market_rate } :=
  ⟨(analyzeProduct_neutral_defaults builtInIngredientData pdNoSignals none none).1 rfl,
   (analyzeProduct_neutral_defaults builtInIngredientData pdNoSignals none none).2.1 rfl,
   (analyzeProduct_neutral_defaults builtInIngredientData pdNoSignals none none).2.2.1 rfl,
   (analyzeProduct_neutral_defaults builtInIngredientData pdNoSignals none none).2.2.2
     (by with_unfolding_all decide)⟩

/-- C10: a review summary whose `total_reviews` is 0 is treated exactly
like an absent summary even when its sentiment counts are nonzero: the
review analysis equals the absent-case neutral record, its weighted-sum
component is the neutral 75, the reality score is unchanged, and
"reviews" is not added to the data sources. -/
theorem zero_reviews_like_absent (db : IngredientsDatabase) (pd : ProductData)
    (sd : Option TikTokVideoData) (rs : ReviewSummary) (h : rs.total_reviews = 0) :
    analyzeReviews (some rs) = analyzeReviews none ∧
    (analyzeProduct db pd sd (some rs)).review_analysis =
      { review_count := 0, sentiment_distribution := ⟨0, 0, 0⟩, review_authenticity_score := 50,
        common_concerns := [], review_credibility := .low } ∧
    reviewScoreComponent (analyzeReviews (some rs)) = 75 ∧
    (analyzeProduct db pd sd (some rs)).reality_score = (analyzeProduct db pd sd none).reality_score ∧
    getDataSources pd sd (some rs) = getDataSources pd sd none := by
  have h1 : analyzeReviews (some rs) = analyzeReviews none := by simp [analyzeReviews, h]
  refine ⟨h1, ?_, ?_, ?_, ?_⟩
  · rw [analyzeProduct_review_eq, h1]; rfl
  · rw [h1]; rfl
  · rw [analyzeProduct_reality_eq, analyzeProduct_reality_eq, h1]
  · simp [getDataSources, h]

/-- C10 witness: a summary with zero total reviews but nonzero sentiment
counts behaves like an absent summary on a concrete call. -/
theorem zero_reviews_like_absent_witness :
    analyzeReviews (some rsZeroTotal) = analyzeReviews none ∧
    (analyzeProduct builtInIngredientData pdScenario1 none (some rsZeroTotal)).review_analysis =
      { review_count := 0, sentiment_distribution := ⟨0, 0, 0⟩, review_authenticity_score := 50,
        common_concerns := [], review_credibility := .low } ∧
    reviewScoreComponent (analyzeReviews (some rsZeroTotal)) = 75 ∧
    (analyzeProduct builtInIngredientData pdScenario1 none (some rsZeroTotal)).reality_score =
      (analyzeProduct builtInIngredientData pdScenario1 none none).reality_score ∧
    getDataSources pdScenario1 none (some rsZeroTotal) = getDataSources pdScenario1 none none :=
  zero_reviews_like_absent builtInIngredientData pdScenario1 none rsZeroTotal rfl

/-- C3 counterexample: at extracted price 18 the code returns
below_market (its bound is 20), while the claimed tiering (bound 15)
says market_rate. -/
theorem market_comparison_claim_false_at_18 :
    compareToMarket (.num 18) = .below_market ∧
    claimMarketComparison 18 = .market_rate ∧
    MarketComparison.below_market ≠ .market_rate := by
  refine ⟨by with_unfolding_all decide, by with_unfolding_all decide, by decide⟩

/-- C3 (amended): for every extracted numeric price the price-range
label tiering is 15/30/60/100 as claimed, but the market comparison uses
the independent bounds 20/50/100: below_market up to 20, market_rate up
to 50, above_market up to 100, premium above 100 (all inclusive). -/
theorem price_tier_characterization (p : ℚ) :
    (getPriceRange (.num p) = "Budget ($0-$15)" ↔ p ≤ 15) ∧
    (getPriceRange (.num p) = "Affordable ($15-$30)" ↔ 15 < p ∧ p ≤ 30) ∧
    (getPriceRange (.num p) = "Mid-range ($30-$60)" ↔ 30 < p ∧ p ≤ 60) ∧
    (getPriceRange (.num p) = "Premium ($60-$100)" ↔ 60 < p ∧ p ≤ 100) ∧
    (getPriceRange (.num p) = "Luxury ($100+)" ↔ 100 < p) ∧
    (compareToMarket (.num p) = .below_market ↔ p ≤ 20) ∧
    (compareToMarket (.num p) = .market_rate ↔ 20 < p ∧ p ≤ 50) ∧
    (compareToMarket (.num p) = .above_market ↔ 50 < p ∧ p ≤ 100) ∧
    (compareToMarket (.num p) = .premium ↔ 100 < p) := by
  rcases le_or_lt p 15 with h1 | h1
  · have c20 : p ≤ 20 := le_trans h1 (by norm_num)
    have c30 : p ≤ 30 := le_trans h1 (by norm_num)
    have c50 : p ≤ 50 := le_trans h1 (by norm_num)
    have c60 : p ≤ 60 := le_trans h1 (by norm_num)
    have c100 : p ≤ 100 := le_trans h1 (by norm_num)
    simp [getPriceRange, compareToMarket, h1, c20, c30, c50, c60, c100,
      not_lt.mpr h1, not_lt.mpr c20, not_lt.mpr c30, not_lt.mpr c50,
      not_lt.mpr c60, not_lt.mpr c100]
  rcases le_or_lt p 20 with h2 | h2
  · have c30 : p ≤ 30 := le_trans h2 (by norm_num)
    have c50 : p ≤ 50 := le_trans h2 (by norm_num)
    have c60 : p ≤ 60 := le_trans h2 (by norm_num)
    have c100 : p ≤ 100 := le_trans h2 (by norm_num)
    simp [getPriceRange, compareToMarket, h1, h2, c30, c50, c60, c100,
      not_le.mpr h1, not_lt.mpr h2, not_lt.mpr c30, not_lt.mpr c50,
      not_lt.mpr c60, not_lt.mpr c100]
  rcases le_or_lt p 30 with h3 | h3
  · have c50 : p ≤ 50 := le_trans h3 (by norm_num)
    have c60 : p ≤ 60 := le_trans h3 (by norm_num)
    have c100 : p ≤ 100 := le_trans h3 (by norm_num)
    simp [getPriceRange, compareToMarket, h1, h2, h3, c50, c60, c100,
      not_le.mpr h1, not_le.mpr h2, not_lt.mpr h3, not_lt.mpr c50,
      not_lt.mpr c60, not_lt.mpr c100]
  rcases le_or_lt p 50 with h4 | h4
  · have c60 : p ≤ 60 := le_trans h4 (by norm_num)
    have c100 : p ≤ 100 := le_trans h4 (by norm_num)
    simp [getPriceRange, compareToMarket, h1, h2, h3, h4, c60, c100,
      not_le.mpr h1, not_le.mpr h2, not_le.mpr h3, not_lt.mpr h4,
      not_lt.mpr c60, not_lt.mpr c100]
  rcases le_or_lt p 60 with h5 | h5
  · have c100 : p ≤ 100 := le_trans h5 (by norm_num)
    simp [getPriceRange, compareToMarket, h1, h2, h3, h4, h5, c100,
      not_le.mpr h1, not_le.mpr h2, not_le.mpr h3, not_le.mpr h4,
      not_lt.mpr h5, not_lt.mpr c100]
  rcases le_or_lt p 100 with h6 | h6
  · simp [getPriceRange, compareToMarket, h1, h2, h3, h4, h5, h6,
      not_le.mpr h1, not_le.mpr h2, not_le.mpr h3, not_le.mpr h4,
      not_le.mpr h5, not_lt.mpr h6]
  · simp [getPriceRange, compareToMarket, h1, h2, h3, h4, h5, h6,
      not_le.mpr h1, not_le.mpr h2, not_le.mpr h3, not_le.mpr h4,
      not_le.mpr h5, not_le.mpr h6]

/-- C4 counterexample: the empty hashtag list returns the neutral 75,
not the 60 the claimed equal-counts rule would give. -/
theorem hashtag_claim_false_on_empty :
    calculateHashtagAuthenticity [] = 75 ∧
    claimHashtagAuthenticity [] = 60 ∧
    ((75 : ℚ) ≠ 60) := by
  refine ⟨by with_unfolding_all decide, by with_unfolding_all decide, by simp⟩

/-- C4 (amended): for a present social record the hashtag authenticity
is 75 exactly on the empty list; on a nonempty list it is 30 exactly
when spammy substring-matches outnumber organic ones, 85 exactly when
organic outnumber spammy, and 60 exactly when the two counts tie. -/
theorem hashtag_authenticity_characterization (tags : List String) :
    (calculateHashtagAuthenticity tags = 75 ↔ tags = []) ∧
    (calculateHashtagAuthenticity tags = 30 ↔ tags ≠ [] ∧
      (tags.filter isOrganicTag).length < (tags.filter isSpammyTag).length) ∧
    (calculateHashtagAuthenticity tags = 85 ↔ tags ≠ [] ∧
      (tags.filter isSpammyTag).length < (tags.filter isOrganicTag).length) ∧
    (calculateHashtagAuthenticity tags = 60 ↔ tags ≠ [] ∧
      (tags.filter isSpammyTag).length = (tags.filter isOrganicTag).length) := by
  by_cases h0 : tags.length = 0
  · have he : tags = [] := List.length_eq_zero.mp h0
    subst he
    simp [calculateHashtagAuthenticity]
  · have hne : tags ≠ [] := fun he => h0 (by simp [he])
    rcases lt_trichotomy ((tags.filter isOrganicTag).length) ((tags.filter isSpammyTag).length)
      with h | h | h
    · simp [calculateHashtagAuthenticity, h0, hne, h, lt_asymm h, Nat.ne_of_gt h]
    · simp [calculateHashtagAuthenticity, h0, hne, h, lt_irrefl]
    · simp [calculateHashtagAuthenticity, h0, hne, h, lt_asymm h, Nat.ne_of_lt h, not_lt.mpr (le_of_lt h)]

/-- Comparison of two ratios of naturals, cleared of denominators. -/
theorem ratio_lt_ratio_iff (a t m n : ℕ) (ht : 0 < t) (hn : 0 < n) :
    ((m : ℚ) / (n : ℚ) < (a : ℚ) / (t : ℚ)) ↔ m * t < a * n := by
  rw [div_lt_div_iff₀ (by exact_mod_cast hn) (by exact_mod_cast ht)]
  norm_cast

/-- Non-strict comparison of two ratios of naturals, cleared of
denominators. -/
theorem ratio_le_ratio_iff (a t m n : ℕ) (ht : 0 < t) (hn : 0 < n) :
    ((a : ℚ) / (t : ℚ) ≤ (m : ℚ) / (n : ℚ)) ↔ a * n ≤ m * t := by
  rw [div_le_div_iff₀ (by exact_mod_cast ht) (by exact_mod_cast hn)]
  norm_cast

/-- C7 counterexample: a present summary with five total reviews but an
all-zero sentiment breakdown gets authenticity 50 from the code's
zero-total guard, while the claimed rule (with the specification's
ratio-is-0-at-zero-total convention) lands in the else branch and says
60. -/
theorem review_auth_claim_false_on_zero_breakdown :
    (analyzeReviews (some rsZeroBreakdown)).review_authenticity_score = 50 ∧
    claimReviewAuthenticity rsZeroBreakdown.sentiment_breakdown = 60 ∧
    ((50 : ℚ) ≠ 60) := by
  refine ⟨by with_unfolding_all decide, by with_unfolding_all decide, by simp⟩

/-- C7 (amended): for a present summary the authenticity score is 50
when the breakdown total is 0; otherwise 30 when the positive ratio
exceeds 0.9 or the negative ratio exceeds 0.8, else 85 when the positive
ratio lies in [0.4, 0.8] and the negative ratio in [0.1, 0.4], else 60
(stated denominator-free); and the credibility is high exactly when
total_reviews is at least 20 with authenticity at least 70, medium
exactly when it is at least 5 with authenticity at least 50 and not
high, and low otherwise. -/
theorem review_authenticity_characterization (sb : SentimentBreakdown)
    (rs : ReviewSummary) (a : ℚ) :
    (calculateReviewAuthenticity sb =
      (if sb.positive + sb.negative + sb.neutral = 0 then 50
       else if 9 * (sb.positive + sb.negative + sb.neutral) < sb.positive * 10 ∨
               8 * (sb.positive + sb.negative + sb.neutral) < sb.negative * 10 then 30
       else if 2 * (sb.positive + sb.negative + sb.neutral) ≤ sb.positive * 5 ∧
               sb.positive * 10 ≤ 8 * (sb.positive + sb.negative + sb.neutral) ∧
               1 * (sb.positive + sb.negative + sb.neutral) ≤ sb.negative * 10 ∧
               sb.negative * 5 ≤ 2 * (sb.positive + sb.negative + sb.neutral) then 85
       else 60)) ∧
    (assessReviewCredibility rs a = .high ↔ 20 ≤ rs.total_reviews ∧ 70 ≤ a) ∧
    (assessReviewCredibility rs a = .medium ↔
      (5 ≤ rs.total_reviews ∧ 50 ≤ a) ∧ ¬(20 ≤ rs.total_reviews ∧ 70 ≤ a)) ∧
    (assessReviewCredibility rs a = .low ↔
      ¬(5 ≤ rs.total_reviews ∧ 50 ≤ a) ∧ ¬(20 ≤ rs.total_reviews ∧ 70 ≤ a)) := by
  constructor
  · by_cases h : sb.positive + sb.negative + sb.neutral = 0
    · simp [calculateReviewAuthenticity, h]
    · have ht : 0 < sb.positive + sb.negative + sb.neutral := Nat.pos_of_ne_zero h
      have e1 := ratio_lt_ratio_iff sb.positive (sb.positive + sb.negative + sb.neutral) 9 10 ht (by norm_num)
      have e2 := ratio_lt_ratio_iff sb.negative (sb.positive + sb.negative + sb.neutral) 8 10 ht (by norm_num)
      have e3 := ratio_le_ratio_iff 2 5 sb.positive (sb.positive + sb.negative + sb.neutral) (by norm_num) ht
      have e4 := ratio_le_ratio_iff sb.positive (sb.positive + sb.negative + sb.neutral) 8 10 ht (by norm_num)
      have e5 := ratio_le_ratio_iff 1 10 sb.negative (sb.positive + sb.negative + sb.neutral) (by norm_num) ht
      have e6 := ratio_le_ratio_iff sb.negative (sb.positive + sb.negative + sb.neutral) 2 5 ht (by norm_num)
      have l09 : (0.9 : ℚ) = 9 / 10 := by norm_num
      have l08 : (0.8 : ℚ) = 8 / 10 := by norm_num
      have l04 : (0.4 : ℚ) = 2 / 5 := by norm_num
      have l01 : (0.1 : ℚ) = 1 / 10 := by norm_num
      push_cast at e1 e2 e3 e4 e5 e6
      simp only [calculateReviewAuthenticity, h, if_false, gt_iff_lt, l09, l08, l04, l01]
      push_cast
      simp only [e1, e2, e3, e4, e5, e6]
  · unfold assessReviewCredibility
    by_cases hh : 20 ≤ rs.total_reviews ∧ 70 ≤ a <;>
      by_cases hm : 5 ≤ rs.total_reviews ∧ 50 ≤ a <;>
      simp [hh, hm]

/-- Rounding is monotone. -/
theorem jsRound_mono {x y : ℚ} (h : x ≤ y) : jsRound x ≤ jsRound y := by
  unfold jsRound
  exact_mod_cast Int.floor_le_floor (by linarith)

/-- Organic matches are covered by spammy matches plus the organic
matches that are not spammy. -/
theorem organic_le_spam_add_surviving (l : List String) :
    (l.filter isOrganicTag).length ≤
      (l.filter isSpammyTag).length +
        (l.filter (fun t => isOrganicTag t && !isSpammyTag t)).length := by
  induction l with
  | nil => simp
  | cons a t ih =>
    by_cases hs : isSpammyTag a <;> by_cases ho : isOrganicTag a <;>
      simp [List.filter_cons, hs, ho] <;> omega

/-- Dropping the spammy elements can only shrink a filter count. -/
theorem filter_after_removal_le (P : String → Bool) (l : List String) :
    (l.filter (fun t => P t && !isSpammyTag t)).length ≤ (l.filter P).length := by
  induction l with
  | nil => simp
  | cons a t ih =>
    by_cases hs : isSpammyTag a <;> by_cases hp : P a <;>
      simp [List.filter_cons, hs, hp] <;> omega

/-- Removing the spammy hashtags never lowers the hashtag-authenticity
score. -/
theorem hashtagAuthenticity_removeSpammy_mono (tags : List String) :
    calculateHashtagAuthenticity tags ≤
      calculateHashtagAuthenticity (removeSpammyHashtags tags) := by
  unfold calculateHashtagAuthenticity removeSpammyHashtags
  by_cases h0 : tags.length = 0
  · have he : tags = [] := List.length_eq_zero.mp h0
    subst he
    simp
  · by_cases h0' : (tags.filter (fun t => !isSpammyTag t)).length = 0
    · -- every tag is spammy, so organic count cannot exceed spammy count
      have hall : ∀ t ∈ tags, isSpammyTag t := by
        intro t htmem
        by_contra hc
        have hmem : t ∈ tags.filter (fun t => !isSpammyTag t) := by
          simp [List.mem_filter, htmem, hc]
        simp [List.length_eq_zero.mp h0'] at hmem
      have hfull : tags.filter isSpammyTag = tags := List.filter_eq_self.mpr hall
      have hso : (tags.filter isOrganicTag).length ≤ (tags.filter isSpammyTag).length := by
        rw [hfull]
        exact List.length_filter_le _ _
      rw [if_neg h0, if_pos h0']
      dsimp only
      split_ifs <;> first | (exfalso; omega) | norm_num
    · rw [if_neg h0, if_neg h0']
      simp only [List.filter_filter]
      have key := organic_le_spam_add_surviving tags
      have hs' : (tags.filter (fun a => isSpammyTag a && !isSpammyTag a)).length = 0 := by
        simp

      split_ifs <;> first | (exfalso; omega) | norm_num

/-- Clearing the flag, emptying the affiliate codes and removing the
spammy hashtags never raises the sponsored-content probability. -/
theorem sponsoredProbability_cleaned_le (sd : TikTokVideoData) :
    calculateSponsoredProbability (cleanedSocial sd) ≤ calculateSponsoredProbability sd := by
  have e1 : (cleanedSocial sd).paid_promotion_detected = false := rfl
  have e2 : (cleanedSocial sd).affiliate_codes = ([] : List String) := rfl
  have e3 : (cleanedSocial sd).promotional_keywords = sd.promotional_keywords := rfl
  have e4 : (cleanedSocial sd).hashtags = removeSpammyHashtags sd.hashtags := rfl
  have hclean : calculateSponsoredProbability (cleanedSocial sd) =
      min 100 ((if sd.promotional_keywords.length > 0 then (20:ℚ) else 0) +
        (((removeSpammyHashtags sd.hashtags).filter
          (fun tag => disclosureTags.contains tag.toLower)).length : ℚ) * 10) := by
    unfold calculateSponsoredProbability
    rw [e1, e2, e3, e4]
    norm_num
  rw [hclean]
  unfold calculateSponsoredProbability
  apply min_le_min le_rfl
  have hc : ((removeSpammyHashtags sd.hashtags).filter
      (fun tag => disclosureTags.contains tag.toLower)).length ≤
      (sd.hashtags.filter (fun tag => disclosureTags.contains tag.toLower)).length := by
    unfold removeSpammyHashtags
    rw [List.filter_filter]
    exact filter_after_removal_le _ _
  have hcq : (((removeSpammyHashtags sd.hashtags).filter
      (fun tag => disclosureTags.contains tag.toLower)).length : ℚ) ≤
      ((sd.hashtags.filter (fun tag => disclosureTags.contains tag.toLower)).length : ℚ) :=
    Nat.cast_le.mpr hc
  have h40 : (0:ℚ) ≤ (if sd.paid_promotion_detected = true then (40:ℚ) else 0) := by
    split_ifs <;> norm_num
  have h30 : (0:ℚ) ≤ (if sd.affiliate_codes.length > 0 then (30:ℚ) else 0) := by
    split_ifs <;> norm_num
  linarith

/-- C6: holding the product, the ingredient database and the review
input fixed, a social record with the paid-promotion flag set yields a
reality score at most that of the otherwise-identical record with the
flag cleared, the affiliate codes emptied and the spammy hashtags
removed (whenever both scores are numeric). -/
theorem social_penalty_monotone (db : IngredientsDatabase) (pd : ProductData)
    (rv : Option ReviewSummary) (sd : TikTokVideoData)
    (hflag : sd.paid_promotion_detected = true) (q q' : ℚ)
    (h1 : (analyzeProduct db pd (some sd) rv).reality_score = .num q)
    (h2 : (analyzeProduct db pd (some (cleanedSocial sd)) rv).reality_score = .num q') :
    q ≤ q' := by
  rw [analyzeProduct_reality_eq] at h1 h2
  unfold calculateOverallScore at h1 h2
  cases hpvi : (analyzePrice pd.price
      (analyzeIngredients db pd.ingredients).ingredient_quality_score).price_vs_ingredients with
  | nan =>
    rw [hpvi] at h1
    simp at h1
  | num ps =>
    rw [hpvi] at h1 h2
    dsimp only at h1 h2
    injection h1 with hq
    injection h2 with hq'
    subst hq hq'
    have hsoc : socialScoreComponent (analyzeSocialMedia (some sd)) ≤
        socialScoreComponent (analyzeSocialMedia (some (cleanedSocial sd))) := by
      have hh := hashtagAuthenticity_removeSpammy_mono sd.hashtags
      have hp := sponsoredProbability_cleaned_le sd
      have e4 : (cleanedSocial sd).hashtags = removeSpammyHashtags sd.hashtags := rfl
      simp only [socialScoreComponent, analyzeSocialMedia, e4, if_pos]
      linarith
    apply jsRound_mono
    apply max_le_max le_rfl
    apply min_le_min le_rfl
    linarith

/-- C6 witness: on scenario-1 product with scenario-2 social data, the
flagged record scores 63 and the cleaned record scores 85. -/
theorem social_penalty_monotone_witness : (63 : ℚ) ≤ 85 :=
  social_penalty_monotone builtInIngredientData pdScenario1 none sdScenario2 rfl 63 85
    (by with_unfolding_all decide) (by with_unfolding_all decide)
